import Mathlib

/-!
Shallow embedding of the OPEN-EYES GSM/SMS core:
the hardware service `GSMHardwareService.envoyer_sms_physique`
(src/core/sms/services.py), the Celery dispatch task `task_envoyer_sms`
(src/core/sms/tasks.py), and the contact slot allocation of
`RegisterContactViaSMSAPIView.post` (src/apps/contacts/views.py).

The serial port (pyserial) is modelled by a behaviour record saying, for
each I/O operation the Python code performs, whether it succeeds or raises
an exception (a `serial.SerialException` or any other `Exception`), and
what `read_all` returns once decoded.  The embedded function threads the
exact try/except/finally structure of the source and records the trace of
serial events (open, each write with its bytes, the read, the close).
-/

namespace OpenEyes

/-- Kind of Python exception an I/O operation can raise: `serial.SerialException`
or any other `Exception` (the two except-clauses of the source). -/
inductive ExcKind
  | serialExc
  | otherExc
deriving DecidableEq

/-- Behaviour of the serial link during one call of `envoyer_sms_physique`:
whether `serial.Serial(...)` raises, whether the i-th `ser.write` raises,
whether `ser.read_all` raises, and the decoded response text it returns
when it succeeds. -/
structure LinkBehavior where
  openExc  : Option ExcKind
  writeExc : Nat → Option ExcKind
  readExc  : Option ExcKind
  reponse  : String

/-- One observable action on the serial port. -/
inductive SerialEvent
  | openPort
  | write (data : List Nat)
  | readAll
  | closePort
deriving DecidableEq

/-- Result of one call of `envoyer_sms_physique`: the boolean the Python
function returns, whether the port got opened, whether it was closed by the
`finally` block, and the ordered trace of serial events. -/
structure RunResult where
  retVal : Bool
  opened : Bool
  closed : Bool
  trace  : List SerialEvent
deriving DecidableEq

/-- Byte encoding of a Python string (`str.encode`); on the ASCII AT
commands of the source, UTF-8 bytes coincide with the code points. -/
def encode (s : String) : List Nat :=
  s.toList.map Char.toNat

/-- The five payloads written by `envoyer_sms_physique`, in source order:
probe, text mode, address command, message body, terminator byte 26. -/
def atCommands (numero message : String) : List (List Nat) :=
  [encode "AT\r",
   encode "AT+CMGF=1\r",
   encode ("AT+CMGS=\"" ++ numero ++ "\"\r"),
   encode message,
   [26]]

/-- Success test of the source: `"OK" in reponse or "+CMGS:" in reponse`
(Python substring containment). -/
def reponseContientSucces (reponse : String) : Bool :=
  decide ("OK".toList <:+: reponse.toList) || decide ("+CMGS:".toList <:+: reponse.toList)

/-- Runs the sequence of writes starting at write index `i`: returns the
payloads actually written (those before the first raising write) and the
exception kind of the first raising write, if any. -/
def runWrites (writeExc : Nat → Option ExcKind) : List (List Nat) → Nat → List (List Nat) × Option ExcKind
  | [], _ => ([], none)
  | c :: cs, i =>
    match writeExc i with
    | some k => ([], some k)
    | none =>
      let rest := runWrites writeExc cs (i + 1)
      (c :: rest.1, rest.2)

/-- Trace of a run that opened the port, performed the given writes, and
was then closed by the `finally` block (no successful read). -/
def openWrClose (written : List (List Nat)) : List SerialEvent :=
  SerialEvent.openPort :: (written.map SerialEvent.write ++ [SerialEvent.closePort])

/-- Trace of a fully successful run: open, all writes, the read, the close. -/
def openWrReadClose (written : List (List Nat)) : List SerialEvent :=
  SerialEvent.openPort :: (written.map SerialEvent.write ++ [SerialEvent.readAll, SerialEvent.closePort])

/-- Embedding of `GSMHardwareService.envoyer_sms_physique` (services.py).
The body opens the port, writes the five payloads of `atCommands`, reads
the accumulated response and tests it for a success token.  A
`serial.SerialException` raised anywhere in the body is caught by the
first except-clause, which logs a simulation notice and returns `True`;
any other exception is caught by the second except-clause and returns
`False`; the `finally` block closes the port whenever it was opened. -/
def envoyer_sms_physique (b : LinkBehavior) (numero message : String) : RunResult :=
  match b.openExc with
  | some ExcKind.serialExc =>
    { retVal := true, opened := false, closed := false, trace := [] }
  | some ExcKind.otherExc =>
    { retVal := false, opened := false, closed := false, trace := [] }
  | none =>
    let wr := runWrites b.writeExc (atCommands numero message) 0
    match wr.2 with
    | some ExcKind.serialExc =>
      { retVal := true, opened := true, closed := true, trace := openWrClose wr.1 }
    | some ExcKind.otherExc =>
      { retVal := false, opened := true, closed := true, trace := openWrClose wr.1 }
    | none =>
      match b.readExc with
      | some ExcKind.serialExc =>
        { retVal := true, opened := true, closed := true, trace := openWrClose wr.1 }
      | some ExcKind.otherExc =>
        { retVal := false, opened := true, closed := true, trace := openWrClose wr.1 }
      | none =>
        { retVal := reponseContientSucces b.reponse, opened := true, closed := true,
          trace := openWrReadClose wr.1 }

/-- Link behaviour with the module present and answering `text`: every
operation succeeds and `read_all` yields `text`. -/
def linkOk (text : String) : LinkBehavior :=
  { openExc := none, writeExc := fun _ => none, readExc := none, reponse := text }

/-- Link behaviour with no hardware attached: `serial.Serial` raises
`SerialException` immediately. -/
def linkAbsent : LinkBehavior :=
  { openExc := some ExcKind.serialExc, writeExc := fun _ => none, readExc := none, reponse := "" }

/-- Link behaviour where the port opens but the very first write raises
`SerialException` (device unplugged mid-exchange). -/
def linkDropsOnFirstWrite : LinkBehavior :=
  { openExc := none,
    writeExc := fun i => if i = 0 then some ExcKind.serialExc else none,
    readExc := none, reponse := "" }

/-- Terminal outcome of one dispatch job, as surfaced by `task_envoyer_sms`:
`success` is the `{'status': 'success'}` return, `notFound` the
`{'status': 'failed', 'reason': 'not_found'}` return, `exhausted` the
final failure when `self.retry` has exceeded `max_retries`. -/
inductive JobOutcome
  | success
  | notFound
  | exhausted
deriving DecidableEq

/-- Database side effects the task could perform on the Django models while
it runs: creating an `SMSLog` row (with some `statut`) or writing the
device's `derniere_communication` timestamp. -/
inductive DbEffect
  | createSMSLog (statut : String)
  | setDerniereCommunication
deriving DecidableEq

/-- Observable run of one dispatch job: terminal outcome, number of task
executions (initial execution plus retries), the countdown of each
scheduled retry in order, and the database effects performed. -/
structure JobRun where
  outcome  : JobOutcome
  attempts : Nat
  delays   : List Nat
  effects  : List DbEffect
deriving DecidableEq

/-- Celery driver for `task_envoyer_sms` (tasks.py) from an execution with
`remaining` retries still allowed (`remaining = max_retries - request.retries`)
and 0-based attempt index `attempt`.  Each execution runs the task body:
a missing device returns the `not_found` result; a `True` from
`envoyer_sms_physique` returns the success result; otherwise the body
raises and the handler calls `self.retry(exc=e, countdown=60)`, which
schedules a re-execution after 60 seconds while retries remain and
otherwise re-raises, making the job fail terminally.  The body performs no
database write on any path. -/
def run_task_envoyer_sms (deviceExists : Bool) (sendOk : Nat → Bool) : Nat → Nat → JobRun
  | 0, attempt =>
    if deviceExists = false then
      { outcome := JobOutcome.notFound, attempts := attempt + 1, delays := [], effects := [] }
    else if sendOk attempt then
      { outcome := JobOutcome.success, attempts := attempt + 1, delays := [], effects := [] }
    else
      { outcome := JobOutcome.exhausted, attempts := attempt + 1, delays := [], effects := [] }
  | r + 1, attempt =>
    if deviceExists = false then
      { outcome := JobOutcome.notFound, attempts := attempt + 1, delays := [], effects := [] }
    else if sendOk attempt then
      { outcome := JobOutcome.success, attempts := attempt + 1, delays := [], effects := [] }
    else
      let rest := run_task_envoyer_sms deviceExists sendOk r (attempt + 1)
      { outcome := rest.outcome, attempts := rest.attempts,
        delays := 60 :: rest.delays, effects := rest.effects }

/-- Embedding of the Celery task `task_envoyer_sms` (tasks.py), declared
with `bind=True, max_retries=3`: the job starts at attempt index 0 with 3
retries available; attempt `i` runs `envoyer_sms_physique` against the
link behaviour `behaviors i` with the device's number and the command
payload. -/
def task_envoyer_sms (deviceExists : Bool) (behaviors : Nat → LinkBehavior)
    (numero contenu : String) : JobRun :=
  run_task_envoyer_sms deviceExists
    (fun i => (envoyer_sms_physique (behaviors i) numero contenu).retVal) 3 0

/-- Free-slot scan of `RegisterContactViaSMSAPIView.post` (views.py):
`next((i for i in range(1, 6) if i not in indices_occupes), None)`. -/
def index_libre (indices_occupes : List Nat) : Option Nat :=
  List.find? (fun i => !(decide (i ∈ indices_occupes))) (List.range' 1 5)

/-- The fields of a `Contact` row the registration view touches: owning
device id, phone number, assigned microcontroller slot index. -/
structure ContactRec where
  canne : Nat
  telephone : String
  id_microcontroleur : Nat
deriving DecidableEq

/-- Outcome of `RegisterContactViaSMSAPIView.post`: the 404 for a missing
device, the 400 duplicate answer, the 400 full-memory answer, or the 201
creation answer carrying the allocated index. -/
inductive RegisterOutcome
  | canneNotFound
  | duplicateContact
  | memoirePleine
  | created (index : Nat)
deriving DecidableEq

/-- Embedding of `RegisterContactViaSMSAPIView.post` (views.py): check the
device, then the duplicate (canne, telephone) pair, then scan occupied
indices of the device for the lowest free index in 1..5, then create the
contact row.  Returns the response outcome and the contact table after the
call. -/
def register_contact (canneExists : Bool) (contacts : List ContactRec)
    (canne_id : Nat) (numero_contact : String) : RegisterOutcome × List ContactRec :=
  if canneExists = false then
    (RegisterOutcome.canneNotFound, contacts)
  else if contacts.any (fun c => c.canne == canne_id && c.telephone == numero_contact) then
    (RegisterOutcome.duplicateContact, contacts)
  else
    let indices_occupes := (contacts.filter (fun c => c.canne == canne_id)).map
      (fun c => c.id_microcontroleur)
    match index_libre indices_occupes with
    | none => (RegisterOutcome.memoirePleine, contacts)
    | some i =>
      (RegisterOutcome.created i,
       contacts ++ [{ canne := canne_id, telephone := numero_contact, id_microcontroleur := i }])

end OpenEyes

namespace OpenEyes

theorem runWrites_all_ok (w : Nat → Option ExcKind) :
    ∀ (cs : List (List Nat)) (i : Nat), (∀ j, j < cs.length → w (i + j) = none) →
      runWrites w cs i = (cs, none) := by
  intro cs
  induction cs with
  | nil => intro i _; rfl
  | cons c cs ih =>
    intro i h
    have h0 : w i = none := by simpa using h 0 (by simp)
    have hrest : runWrites w cs (i + 1) = (cs, none) := by
      refine ih (i + 1) ?_
      intro j hj
      have hwj := h (j + 1) (by simpa using Nat.succ_lt_succ hj)
      have e : i + (j + 1) = i + 1 + j := by omega
      exact e ▸ hwj
    simp [runWrites, h0, hrest]

theorem openWrClose_getLast (w : List (List Nat)) :
    (openWrClose w).getLast? = some SerialEvent.closePort := by
  show ((SerialEvent.openPort :: w.map SerialEvent.write) ++
    SerialEvent.closePort :: []).getLast? = some SerialEvent.closePort
  rw [List.getLast?_append_cons]
  rfl

theorem openWrReadClose_getLast (w : List (List Nat)) :
    (openWrReadClose w).getLast? = some SerialEvent.closePort := by
  show ((SerialEvent.openPort :: w.map SerialEvent.write) ++
    SerialEvent.readAll :: [SerialEvent.closePort]).getLast? = some SerialEvent.closePort
  rw [List.getLast?_append_cons]
  rfl

theorem find_free_spec (occ : List Nat) :
    ∀ (n s : Nat),
      (∀ i, List.find? (fun i => !(decide (i ∈ occ))) (List.range' s n) = some i →
        s ≤ i ∧ i < s + n ∧ i ∉ occ ∧ ∀ j, s ≤ j → j < i → j ∈ occ)
    ∧ ((∀ i, s ≤ i → i < s + n → i ∈ occ) →
        List.find? (fun i => !(decide (i ∈ occ))) (List.range' s n) = none) := by
  intro n
  induction n with
  | zero =>
    intro s
    constructor
    · intro i hi
      simp [List.range'] at hi
    · intro _
      simp [List.range']
  | succ m ih =>
    intro s
    have hr : List.range' s (m + 1) = s :: List.range' (s + 1) m := rfl
    constructor
    · intro i hi
      rw [hr] at hi
      by_cases hs : s ∈ occ
      · rw [List.find?_cons_of_neg _ (by simp [hs])] at hi
        obtain ⟨h1, h2, h3, h4⟩ := (ih (s + 1)).1 i hi
        refine ⟨by omega, by omega, h3, ?_⟩
        intro j hj1 hj2
        rcases Nat.eq_or_lt_of_le hj1 with hj | hj
        · exact hj ▸ hs
        · exact h4 j hj hj2
      · rw [List.find?_cons_of_pos _ (by simp [hs])] at hi
        obtain rfl : s = i := by simpa using hi
        exact ⟨Nat.le_refl s, by omega, hs, fun j hj1 hj2 => absurd (Nat.lt_of_le_of_lt hj1 hj2) (Nat.lt_irrefl s)⟩
    · intro hall
      rw [hr]
      have hs : s ∈ occ := hall s (Nat.le_refl s) (by omega)
      rw [List.find?_cons_of_neg _ (by simp [hs])]
      exact (ih (s + 1)).2 (fun i h1 h2 => hall i (by omega) (by omega))

/-- Claim C1, counterexample: a `SerialException` raised by the first write
of an already-open exchange — a transport fault other than an open failure —
makes `envoyer_sms_physique` return the simulated success `true`, not the
failure `false` the claim requires; moreover the hardware-absent simulated
outcome is the very same value a real confirmed exchange returns, so the
returned outcome does not distinguish them. -/
theorem C1_counterexample :
    (envoyer_sms_physique linkDropsOnFirstWrite "+237600000000" "CONF:1:FAMILLE:+237600000000").retVal = true
  ∧ (envoyer_sms_physique linkAbsent "+237600000000" "m").retVal
      = (envoyer_sms_physique (linkOk "OK") "+237600000000" "m").retVal := by
  constructor
  · rfl
  · decide

/-- Claim C1 (amended): any `SerialException` — on open or at any later
step of the exchange — makes `envoyer_sms_physique` return the simulated
success `true` (the same boolean as a real CONFIRMED, distinguishable only
in logs); any non-serial exception returns the failure `false`. -/
theorem C1_simulated_success (b : LinkBehavior) (numero message : String) :
    (b.openExc = some ExcKind.serialExc →
      (envoyer_sms_physique b numero message).retVal = true)
  ∧ (b.openExc = some ExcKind.otherExc →
      (envoyer_sms_physique b numero message).retVal = false)
  ∧ (b.openExc = none →
      (runWrites b.writeExc (atCommands numero message) 0).2 = some ExcKind.serialExc →
      (envoyer_sms_physique b numero message).retVal = true)
  ∧ (b.openExc = none →
      (runWrites b.writeExc (atCommands numero message) 0).2 = some ExcKind.otherExc →
      (envoyer_sms_physique b numero message).retVal = false)
  ∧ (b.openExc = none →
      (runWrites b.writeExc (atCommands numero message) 0).2 = none →
      b.readExc = some ExcKind.serialExc →
      (envoyer_sms_physique b numero message).retVal = true)
  ∧ (b.openExc = none →
      (runWrites b.writeExc (atCommands numero message) 0).2 = none →
      b.readExc = some ExcKind.otherExc →
      (envoyer_sms_physique b numero message).retVal = false) := by
  refine ⟨?_, ?_, ?_, ?_, ?_, ?_⟩
  · intro h; simp [envoyer_sms_physique, h]
  · intro h; simp [envoyer_sms_physique, h]
  · intro h hw; simp [envoyer_sms_physique, h, hw]
  · intro h hw; simp [envoyer_sms_physique, h, hw]
  · intro h hw hr; simp [envoyer_sms_physique, h, hw, hr]
  · intro h hw hr; simp [envoyer_sms_physique, h, hw, hr]

/-- Claim C1, witness: with no hardware attached the send returns `true`. -/
theorem C1_simulated_success_witness :
    (envoyer_sms_physique linkAbsent "+237600000000" "x").retVal = true :=
  (C1_simulated_success linkAbsent "+237600000000" "x").1 rfl

/-- Claim C4: a completed exchange (port opened, all five writes and the
read succeeded) is confirmed exactly when the accumulated response
contains the substring `OK` or the substring `+CMGS:`; any other
response, the empty one of a read timeout included, is rejected. -/
theorem C4_confirmed_iff_token (b : LinkBehavior) (numero message : String)
    (hopen : b.openExc = none)
    (hw : (runWrites b.writeExc (atCommands numero message) 0).2 = none)
    (hr : b.readExc = none) :
    (envoyer_sms_physique b numero message).retVal = true ↔
      ("OK".toList <:+: b.reponse.toList ∨ "+CMGS:".toList <:+: b.reponse.toList) := by
  simp [envoyer_sms_physique, hopen, hw, hr, reponseContientSucces]

/-- Claim C4, witness: a response containing `OK` is confirmed, an empty
response is rejected. -/
theorem C4_confirmed_iff_token_witness :
    (envoyer_sms_physique (linkOk "AT+CMGS\r\nOK\r\n") "+237600000000" "x").retVal = true
  ∧ (envoyer_sms_physique (linkOk "") "+237600000000" "x").retVal = false := by
  constructor
  · exact (C4_confirmed_iff_token (linkOk "AT+CMGS\r\nOK\r\n") "+237600000000" "x"
      rfl rfl rfl).mpr (Or.inl (by decide))
  · decide

/-- Claim C5: over a live link (no operation raises) the serial trace of
one send of message `message` to number `numero` is exactly, in order and
under one held acquisition: open, `AT\r`, `AT+CMGF=1\r`,
`AT+CMGS="numero"\r`, the message body, the single terminator byte 26,
the read, close. -/
theorem C5_wire_sequence (b : LinkBehavior) (numero message : String)
    (hopen : b.openExc = none)
    (hw : ∀ j, j < 5 → b.writeExc j = none)
    (hr : b.readExc = none) :
    (envoyer_sms_physique b numero message).trace =
      SerialEvent.openPort ::
        SerialEvent.write (encode "AT\r") ::
        SerialEvent.write (encode "AT+CMGF=1\r") ::
        SerialEvent.write (encode ("AT+CMGS=\"" ++ numero ++ "\"\r")) ::
        SerialEvent.write (encode message) ::
        SerialEvent.write [26] ::
        SerialEvent.readAll :: [SerialEvent.closePort] := by
  have hrw : runWrites b.writeExc (atCommands numero message) 0 = (atCommands numero message, none) := by
    refine runWrites_all_ok b.writeExc (atCommands numero message) 0 ?_
    intro j hj
    simpa using hw j (by simpa [atCommands] using hj)
  simp only [envoyer_sms_physique, hopen, hrw, hr, openWrReadClose]
  simp [atCommands]

/-- Claim C5, witness: the trace of a concrete live send. -/
theorem C5_wire_sequence_witness :
    (envoyer_sms_physique (linkOk "OK") "+237600000000" "CONF:1:FAMILLE:+237600000001").trace =
      SerialEvent.openPort ::
        SerialEvent.write (encode "AT\r") ::
        SerialEvent.write (encode "AT+CMGF=1\r") ::
        SerialEvent.write (encode ("AT+CMGS=\"" ++ "+237600000000" ++ "\"\r")) ::
        SerialEvent.write (encode "CONF:1:FAMILLE:+237600000001") ::
        SerialEvent.write [26] ::
        SerialEvent.readAll :: [SerialEvent.closePort] :=
  C5_wire_sequence (linkOk "OK") "+237600000000" "CONF:1:FAMILLE:+237600000001"
    rfl (fun _ _ => rfl) rfl

/-- Claim C3: the slot scan of the registration view returns the lowest
index of 1..5 not occupied for the device — so a freed index is the first
one reused — never an index outside 1..5, and returns none (the full-table
failure) when all of 1..5 are occupied. -/
theorem C3_index_libre_spec (occ : List Nat) :
    (∀ i, index_libre occ = some i →
      1 ≤ i ∧ i ≤ 5 ∧ i ∉ occ ∧ ∀ j, 1 ≤ j → j < i → j ∈ occ)
  ∧ ((∀ i, 1 ≤ i → i ≤ 5 → i ∈ occ) → index_libre occ = none) := by
  constructor
  · intro i hi
    obtain ⟨h1, h2, h3, h4⟩ := (find_free_spec occ 5 1).1 i hi
    exact ⟨h1, by omega, h3, h4⟩
  · intro hall
    exact (find_free_spec occ 5 1).2 (fun i hi1 hi2 => hall i hi1 (by omega))

/-- Claim C3, witness: on occupied indices 1, 2, 4 the scan allocates 3,
which is in range, free, and has every smaller index occupied; a full
table yields no index. -/
theorem C3_index_libre_spec_witness :
    (1 ≤ 3 ∧ 3 ≤ 5 ∧ (3 : Nat) ∉ [1, 2, 4] ∧ (2 : Nat) ∈ [1, 2, 4])
  ∧ index_libre [5, 4, 3, 2, 1] = none := by
  constructor
  · have h := (C3_index_libre_spec [1, 2, 4]).1 3 (by decide)
    exact ⟨h.1, h.2.1, h.2.2.1, h.2.2.2 2 (by decide) (by decide)⟩
  · exact (C3_index_libre_spec [5, 4, 3, 2, 1]).2 (by decide)

/-- Claim C2, counterexample: with `bind=True, max_retries=3` an
always-rejected job runs 4 task executions (the initial one plus the 3
Celery retries), not 3 — the 4th attempt does run — before failing
terminally. -/
theorem C2_counterexample :
    (task_envoyer_sms true (fun _ => linkOk "") "+237699999999" "CONF:1:FAMILLE:+237600000000").outcome
        = JobOutcome.exhausted
  ∧ (task_envoyer_sms true (fun _ => linkOk "") "+237699999999" "CONF:1:FAMILLE:+237600000000").attempts = 4
  ∧ ¬ ((task_envoyer_sms true (fun _ => linkOk "") "+237699999999" "CONF:1:FAMILLE:+237600000000").attempts = 3) := by
  refine ⟨rfl, rfl, by decide⟩

/-- Claim C2 (amended): a job whose every protocol attempt is rejected
reaches the terminal exhausted state after exactly 4 attempts — the
initial execution plus the 3 retries `max_retries=3` allows — a 5th never
runs, and each of the 3 retries is scheduled with the fixed 60-second
countdown. -/
theorem C2_exhausted_after_four (behaviors : Nat → LinkBehavior) (numero contenu : String)
    (h : ∀ i, (envoyer_sms_physique (behaviors i) numero contenu).retVal = false) :
    task_envoyer_sms true behaviors numero contenu =
      { outcome := JobOutcome.exhausted, attempts := 4, delays := [60, 60, 60], effects := [] } := by
  simp [task_envoyer_sms, run_task_envoyer_sms, h]

/-- Claim C2, witness: a concrete always-rejecting link exhausts the job
in 4 attempts with three 60-second retry delays. -/
theorem C2_exhausted_after_four_witness :
    task_envoyer_sms true (fun _ => linkOk "ERROR") "+237699999999" "CONF:1:FAMILLE:+237600000000" =
      { outcome := JobOutcome.exhausted, attempts := 4, delays := [60, 60, 60], effects := [] } :=
  C2_exhausted_after_four (fun _ => linkOk "ERROR") "+237699999999" "CONF:1:FAMILLE:+237600000000"
    (by
      intro i
      show (envoyer_sms_physique (linkOk "ERROR") "+237699999999" "CONF:1:FAMILLE:+237600000000").retVal = false
      decide)

/-- Claim C6, counterexample: a run that reaches CONFIRMED records the
success outcome but performs no write of `derniere_communication` — the
task has no database effect at all. -/
theorem C6_counterexample :
    (task_envoyer_sms true (fun _ => linkOk "+CMGS: 12") "+237699999999" "CONF:1:FAMILLE:+237600000000").outcome
        = JobOutcome.success
  ∧ DbEffect.setDerniereCommunication ∉
      (task_envoyer_sms true (fun _ => linkOk "+CMGS: 12") "+237699999999" "CONF:1:FAMILLE:+237600000000").effects := by
  refine ⟨by decide, by decide⟩

theorem run_task_first_success (sendOk : Nat → Bool) :
    ∀ (k remaining attempt : Nat), k ≤ remaining →
      sendOk (attempt + k) = true →
      (∀ j, j < k → sendOk (attempt + j) = false) →
      run_task_envoyer_sms true sendOk remaining attempt =
        { outcome := JobOutcome.success, attempts := attempt + k + 1,
          delays := List.replicate k 60, effects := [] } := by
  intro k
  induction k with
  | zero =>
    intro remaining attempt _ hs _
    rw [Nat.add_zero] at hs
    cases remaining <;> simp [run_task_envoyer_sms, hs]
  | succ m ih =>
    intro remaining attempt hle hs hprev
    match remaining, hle with
    | r + 1, _ =>
      have h0 : sendOk attempt = false := by simpa using hprev 0 (Nat.succ_pos m)
      have hs' : sendOk (attempt + 1 + m) = true := by
        have e : attempt + 1 + m = attempt + (m + 1) := by omega
        rw [e]; exact hs
      have hprev' : ∀ j, j < m → sendOk (attempt + 1 + j) = false := by
        intro j hj
        have h := hprev (j + 1) (by omega)
        have e : attempt + (j + 1) = attempt + 1 + j := by omega
        rwa [e] at h
      have hrec := ih r (attempt + 1) (by omega) hs' hprev'
      simp [run_task_envoyer_sms, h0, hrec, List.replicate_succ]
      omega

/-- Claim C6 (amended): every send that reaches CONFIRMED — its first
confirmed protocol attempt being attempt `k`, within the retry budget of
`max_retries=3`, every earlier attempt rejected — terminates with outcome
SUCCESS after `k + 1` attempts and performs no database effect: in
particular the device's `derniere_communication` timestamp is not
updated. -/
theorem C6_success_recorded (behaviors : Nat → LinkBehavior) (numero contenu : String) (k : Nat)
    (hk : k ≤ 3)
    (hs : (envoyer_sms_physique (behaviors k) numero contenu).retVal = true)
    (hprev : ∀ j, j < k → (envoyer_sms_physique (behaviors j) numero contenu).retVal = false) :
    task_envoyer_sms true behaviors numero contenu =
      { outcome := JobOutcome.success, attempts := k + 1,
        delays := List.replicate k 60, effects := [] } := by
  have h := run_task_first_success
    (fun i => (envoyer_sms_physique (behaviors i) numero contenu).retVal) k 3 0 hk
    (by simpa using hs) (fun j hj => by simpa using hprev j hj)
  simpa [task_envoyer_sms] using h

/-- Claim C6, witness: a send rejected on attempt 0 and confirmed on
attempt 1 records SUCCESS after 2 attempts with one 60-second retry delay
and an empty effects list. -/
theorem C6_success_recorded_witness :
    task_envoyer_sms true (fun i => if i = 0 then linkOk "" else linkOk "+CMGS: 12")
        "+237699999999" "CONF:1:FAMILLE:+237600000000" =
      { outcome := JobOutcome.success, attempts := 2, delays := [60], effects := [] } := by
  have h := C6_success_recorded (fun i => if i = 0 then linkOk "" else linkOk "+CMGS: 12")
    "+237699999999" "CONF:1:FAMILLE:+237600000000" 1 (by decide)
    (by decide)
    (by
      intro j hj
      obtain rfl : j = 0 := by omega
      decide)
  simpa using h

/-- Claim C7: the task creates no `SMSLog` row on any path — neither a
successful nor an exhausted terminal job leaves an Exchange Log Entry,
although tasks.py imports `SMSLog` with the comment that the import is
needed to create the log. -/
theorem C7_no_log_entry :
    (task_envoyer_sms true (fun _ => linkOk "") "+237699999999" "CONF:1:FAMILLE:+237600000000").outcome
        = JobOutcome.exhausted
  ∧ (task_envoyer_sms true (fun _ => linkOk "") "+237699999999" "CONF:1:FAMILLE:+237600000000").effects = []
  ∧ (task_envoyer_sms true (fun _ => linkOk "OK") "+237699999999" "CONF:1:FAMILLE:+237600000000").outcome
        = JobOutcome.success
  ∧ (task_envoyer_sms true (fun _ => linkOk "OK") "+237699999999" "CONF:1:FAMILLE:+237600000000").effects = [] := by
  refine ⟨rfl, rfl, by decide, by decide⟩

/-- Claim C8: a job whose device identifier matches no `Canne` terminates
immediately with the not-found outcome after a single execution, with no
retry scheduled and no database effect, whatever the link would do. -/
theorem C8_not_found_short_circuit (behaviors : Nat → LinkBehavior) (numero contenu : String) :
    task_envoyer_sms false behaviors numero contenu =
      { outcome := JobOutcome.notFound, attempts := 1, delays := [], effects := [] } := rfl

/-- Claim C9: registration of a phone number already present for the
device answers DuplicateContact and leaves the contact table unchanged —
no slot assigned, no contact created — and registration preserves
uniqueness of the (device, phone-number) pair across the table. -/
theorem C9_duplicate_guard (canneExists : Bool) (contacts : List ContactRec)
    (canne_id : Nat) (numero : String) :
    ((∃ c ∈ contacts, c.canne = canne_id ∧ c.telephone = numero) →
      register_contact true contacts canne_id numero = (RegisterOutcome.duplicateContact, contacts))
  ∧ (contacts.Pairwise (fun a b => ¬(a.canne = b.canne ∧ a.telephone = b.telephone)) →
      (register_contact canneExists contacts canne_id numero).2.Pairwise
        (fun a b => ¬(a.canne = b.canne ∧ a.telephone = b.telephone))) := by
  constructor
  · rintro ⟨c, hc, h1, h2⟩
    have hany : contacts.any (fun c => c.canne == canne_id && c.telephone == numero) = true :=
      List.any_eq_true.mpr ⟨c, hc, by simp [h1, h2]⟩
    simp [register_contact, hany]
  · intro hpw
    cases canneExists with
    | false => simpa [register_contact] using hpw
    | true =>
      by_cases hany : contacts.any (fun c => c.canne == canne_id && c.telephone == numero) = true
      · simpa [register_contact, hany] using hpw
      · have hfalse : contacts.any (fun c => c.canne == canne_id && c.telephone == numero) = false :=
          Bool.eq_false_iff.mpr hany
        cases hidx : index_libre ((contacts.filter (fun c => c.canne == canne_id)).map
            (fun c => c.id_microcontroleur)) with
        | none => simpa [register_contact, hfalse, hidx] using hpw
        | some i =>
          have hnodup : ∀ c ∈ contacts, ¬(c.canne = canne_id ∧ c.telephone = numero) := by
            intro c hc hcontra
            have hc' : contacts.any (fun c => c.canne == canne_id && c.telephone == numero) = true :=
              List.any_eq_true.mpr ⟨c, hc, by simp [hcontra.1, hcontra.2]⟩
            rw [hfalse] at hc'
            exact Bool.false_ne_true hc'
          have hsnd : (register_contact true contacts canne_id numero).2 =
              contacts ++ [{ canne := canne_id, telephone := numero, id_microcontroleur := i }] := by
            simp [register_contact, hfalse, hidx]
          rw [hsnd, List.pairwise_append]
          refine ⟨hpw, List.pairwise_singleton _ _, ?_⟩
          intro a ha b hb
          have hb' : b = { canne := canne_id, telephone := numero, id_microcontroleur := i } := by
            simpa using hb
          subst hb'
          intro hcontra
          exact hnodup a ha ⟨hcontra.1, hcontra.2⟩

/-- Claim C9, witness: registering an existing (device, number) pair on a
one-row table answers DuplicateContact and leaves the table unchanged. -/
theorem C9_duplicate_guard_witness :
    register_contact true [{ canne := 1, telephone := "+237600000000", id_microcontroleur := 1 }] 1 "+237600000000" =
      (RegisterOutcome.duplicateContact,
       [{ canne := 1, telephone := "+237600000000", id_microcontroleur := 1 }]) :=
  (C9_duplicate_guard true
      [{ canne := 1, telephone := "+237600000000", id_microcontroleur := 1 }] 1 "+237600000000").1
    ⟨{ canne := 1, telephone := "+237600000000", id_microcontroleur := 1 }, by simp, rfl, rfl⟩

/-- Claim C10: `envoyer_sms_physique` always yields a boolean result (it
is total over every link behaviour), any non-serial exception — on open,
during a write, or on the read — is mapped to the failure `false`, and
whenever the port got opened the `finally` block closed it and the trace
ends with the close event; when open itself failed nothing was done on
the port. -/
theorem C10_total_and_closed (b : LinkBehavior) (numero message : String) :
    ((envoyer_sms_physique b numero message).retVal = true ∨
     (envoyer_sms_physique b numero message).retVal = false)
  ∧ ((envoyer_sms_physique b numero message).opened = true →
      (envoyer_sms_physique b numero message).closed = true ∧
      (envoyer_sms_physique b numero message).trace.getLast? = some SerialEvent.closePort)
  ∧ ((envoyer_sms_physique b numero message).opened = false →
      (envoyer_sms_physique b numero message).trace = [])
  ∧ (b.openExc = some ExcKind.otherExc →
      (envoyer_sms_physique b numero message).retVal = false)
  ∧ (b.openExc = none →
      (runWrites b.writeExc (atCommands numero message) 0).2 = some ExcKind.otherExc →
      (envoyer_sms_physique b numero message).retVal = false)
  ∧ (b.openExc = none →
      (runWrites b.writeExc (atCommands numero message) 0).2 = none →
      b.readExc = some ExcKind.otherExc →
      (envoyer_sms_physique b numero message).retVal = false) := by
  rcases hopen : b.openExc with _ | k
  · rcases hw : (runWrites b.writeExc (atCommands numero message) 0).2 with _ | kw
    · rcases hr : b.readExc with _ | kr
      · refine ⟨?_, ?_, ?_, ?_, ?_, ?_⟩ <;>
          simp [envoyer_sms_physique, hopen, hw, hr, openWrReadClose_getLast]
      · cases kr <;>
          refine ⟨?_, ?_, ?_, ?_, ?_, ?_⟩ <;>
            simp [envoyer_sms_physique, hopen, hw, hr, openWrClose_getLast]
    · cases kw <;>
        refine ⟨?_, ?_, ?_, ?_, ?_, ?_⟩ <;>
          simp [envoyer_sms_physique, hopen, hw, openWrClose_getLast]
  · cases k <;>
      refine ⟨?_, ?_, ?_, ?_, ?_, ?_⟩ <;>
        simp [envoyer_sms_physique, hopen]

/-- Claim C10, witness: on a live link the port was opened, and it ends
closed with the close event last in the trace. -/
theorem C10_total_and_closed_witness :
    (envoyer_sms_physique (linkOk "OK") "+237600000000" "m").closed = true ∧
    (envoyer_sms_physique (linkOk "OK") "+237600000000" "m").trace.getLast? = some SerialEvent.closePort :=
  (C10_total_and_closed (linkOk "OK") "+237600000000" "m").2.1 rfl

end OpenEyes
